import Mathlib

/-!
# syncano-go: authentication and response classification

A shallow embedding of `syncano.go`.  Go's multiple return values become
result structures, the `error` interface becomes the inductive `Error`
(`none` is Go's `nil` error), pointers become values (`Option` where the code
distinguishes `nil`), and the effects of a call (HTTP requests issued, body
released, lines handed to the logger) are returned as a list of `Event`s.

What the program takes from outside is a parameter: `Env` holds the answer of
the HTTP client to a request and the behaviour of `encoding/json` on the three
types the code encodes or decodes.  The logger handed to `Connect` is taken to
be a non-nil `StdLogger`; each `Println` is recorded as an event.
-/

namespace SyncanoGo

/-! ## Constants -/

def APIVersion : String := "v1"
def AuthPath : String := "account/auth/"
def AccountPath : String := "account/"
def ContentType : String := "application/json"
def DefaultTimeOut : Int := 30
def DefaultAPIRoot : String := "https://api.syncano.rocks"
def DefaultServer : String := "api.syncano.rocks"

/-- The package variable `gAPIRoot`; `init` sets it to `DefaultAPIRoot`. -/
def gAPIRoot : String := DefaultAPIRoot

/-- The constant `time.Second`, in nanoseconds (a `time.Duration`). -/
def timeSecond : Int := 1000000000

/-! ## Errors -/

structure httpError where
  StatusCode : Int
deriving DecidableEq, Repr

/-- The values of Go's `error` interface this package returns: its five error
types, and `transport`, an error of `net/http` (a `*url.Error`) handed on as
it came, which is none of the package's types. -/
inductive Error where
  | ClientError (e : httpError)
  | ServerError (e : httpError)
  | RedirectionError (e : httpError)
  | InformationalError (e : httpError)
  | InfrastructureError (msg : String)
  | transport (msg : String)
deriving DecidableEq, Repr

def httpError.Error (e : httpError) : String :=
  "Syncano: HTTP Error with status code of " ++ toString e.StatusCode

/-- The method `Error()` of each error value. -/
def Error.errorText : Error → String
  | .ClientError e => e.Error
  | .ServerError e => e.Error
  | .RedirectionError e => e.Error
  | .InformationalError e => e.Error
  | .InfrastructureError msg => msg
  | .transport msg => msg

def NewInfrastructureError (msg : String) : Error :=
  Error.InfrastructureError msg

/-- The error is an `*InfrastructureError` (what a type assertion tests). -/
def Error.isInfrastructure : Error → Bool
  | .InfrastructureError _ => true
  | _ => false

/-- The error is one of the four status-band errors. -/
def Error.isStatusBand : Error → Bool
  | .ClientError _ => true
  | .ServerError _ => true
  | .RedirectionError _ => true
  | .InformationalError _ => true
  | _ => false

/-- The error belongs to the package's taxonomy (status band or infrastructure). -/
def Error.isClassified (e : Error) : Bool :=
  e.isStatusBand || e.isInfrastructure

/-! ## Data -/

structure authResponse where
  APIKey : String
deriving DecidableEq, Repr, Inhabited

structure authParam where
  Email : String
  Password : String
deriving DecidableEq, Repr

structure AccountDetails where
  ID : Int
  Email : String
  LastName : String
  FirstName : String
deriving DecidableEq, Repr, Inhabited

/-- The fields of `tls.Config` the code sets. -/
structure TLSConfig where
  InsecureSkipVerify : Bool
  ServerName : String
deriving DecidableEq, Repr

/-- The field of `http.Transport` the code sets (`nil` until then). -/
structure Transport where
  TLSClientConfig : Option TLSConfig
deriving DecidableEq, Repr

/-- The fields of `http.Client` the code sets; `Timeout` in nanoseconds. -/
structure Client where
  Transport : Option Transport
  Timeout : Int
deriving DecidableEq, Repr

/-- The two shared values of `net/http` that `getConn` writes to. -/
structure HTTPDefaults where
  DefaultTransport : Transport
  DefaultClient : Client
deriving DecidableEq, Repr

structure syncano where
  client : Client
  apiKey : String
  InstanceName : String
  InstanceKey : String
  email : String
  password : String
  authenticated : Bool
deriving DecidableEq, Repr

structure Syncano where
  syncano : syncano
deriving DecidableEq, Repr

structure ConnectionCredentials where
  APIKey : String
  InstanceKey : String
  InstanceName : String
  Email : String
  Password : String
  SkipSSLVerification : Bool
deriving DecidableEq, Repr

/-! ## The outside world -/

/-- An `*http.Response` as the code reads it: the status code, and what
`ioutil.ReadAll(response.Body)` gives, the bytes or a read error. -/
structure Response where
  StatusCode : Int
  Body : Except String String

/-- A request the client is asked to send. -/
inductive Request where
  | Get (url : String)
  | Post (url : String) (contentType : String) (body : String)
deriving DecidableEq, Repr

/-- An observable effect of a call. -/
inductive Event where
  | request (r : Request)
  | closeBody
  | log (msg : String)
deriving DecidableEq, Repr

/-- What the code does not decide: `send` is the pair `(response, err)` that
`client.Get` or `client.Post` returns (`Except.error` is a non-nil `err`), the
other three are `json.Marshal` and `json.Unmarshal` at the types used, the
latter giving the destination after the call and the error or `none`. -/
structure Env where
  send : Client → Request → Except String Response
  marshalAuthParam : authParam → String
  unmarshalAuthResponse : String → authResponse → authResponse × Option String
  unmarshalAccountDetails : String → AccountDetails → AccountDetails × Option String

/-- The text `url.String()` gives for the URL parsed from `root` (a scheme and a
host) after its `Path` and `RawQuery` were set: a slash is put before a path
that has none, a question mark before a query that is not empty. -/
def urlString (root path rawQuery : String) : String :=
  root ++ "/" ++ path ++ (if rawQuery = "" then "" else "?" ++ rawQuery)

/-! ## parseResponse -/

structure ParseResult (α : Type) where
  v : α
  err : Option Error
  events : List Event

/-- The function `parseResponse`: `unmarshal` is `json.Unmarshal` at the type of
the destination `v`, `typeName` is `reflect.TypeOf(v).String()`. -/
def parseResponse {α : Type} (unmarshal : String → α → α × Option String)
    (typeName : String) (response : Response) (v : α) : ParseResult α :=
  if 400 ≤ response.StatusCode ∧ response.StatusCode ≤ 499 then
    ⟨v, some (Error.ClientError ⟨response.StatusCode⟩), [Event.closeBody]⟩
  else if 500 ≤ response.StatusCode ∧ response.StatusCode ≤ 599 then
    ⟨v, some (Error.ServerError ⟨response.StatusCode⟩), [Event.closeBody]⟩
  else if 300 ≤ response.StatusCode ∧ response.StatusCode ≤ 399 then
    ⟨v, some (Error.RedirectionError ⟨response.StatusCode⟩), [Event.closeBody]⟩
  else if 100 ≤ response.StatusCode ∧ response.StatusCode ≤ 199 then
    ⟨v, some (Error.InformationalError ⟨response.StatusCode⟩), [Event.closeBody]⟩
  else
    match response.Body with
    | .error e =>
      ⟨v, some (NewInfrastructureError
          ("syncano: Error in reading the response body -" ++ e)), [Event.closeBody]⟩
    | .ok bytes =>
      match unmarshal bytes v with
      | (w, some _) =>
        ⟨w, some (NewInfrastructureError
            ("syncano: error in parsing response body bytes - " ++ bytes
              ++ "to type -" ++ typeName)), [Event.closeBody]⟩
      | (w, none) => ⟨w, none, [Event.closeBody]⟩

/-! ## Remote operations -/

structure AccountResult where
  accDetails : Option AccountDetails
  err : Option Error
  events : List Event

/-- The URL of the account-details request for an API key. -/
def accountURL (apiKey : String) : String :=
  urlString gAPIRoot (APIVersion ++ "/" ++ AccountPath) ("api_key=" ++ apiKey)

/-- The method `GetAccountDetails`. -/
def GetAccountDetails (env : Env) (s : syncano) : AccountResult :=
  let url := accountURL s.apiKey
  match env.send s.client (Request.Get url) with
  | .error e => ⟨none, some (Error.transport e), [Event.request (Request.Get url)]⟩
  | .ok resp =>
    let x : AccountDetails := ⟨0, "", "", ""⟩
    let r := parseResponse env.unmarshalAccountDetails "*syncano.AccountDetails" resp x
    ⟨some r.v, r.err, Event.request (Request.Get url) :: r.events⟩

structure ValidateResult where
  valid : Bool
  err : Option Error
  events : List Event

/-- The method `validateAPIKEY`. -/
def validateAPIKEY (env : Env) (s : syncano) : ValidateResult :=
  let r := GetAccountDetails env s
  let logged : List Event :=
    match r.err with
    | some err =>
      [Event.log ("syncano: Authentication failed for the API KEY - " ++ s.apiKey
        ++ " , more info -" ++ err.errorText)]
    | none => []
  ⟨r.accDetails.isSome, r.err, r.events ++ logged⟩

structure LoginResult where
  apiKey : String
  err : Option Error
  events : List Event

/-- The URL of the login request. -/
def authURL : String :=
  urlString DefaultAPIRoot (APIVersion ++ "/" ++ AuthPath) ""

/-- The login request for an email and a password. -/
def authRequest (env : Env) (email password : String) : Request :=
  Request.Post authURL ContentType (env.marshalAuthParam ⟨email, password⟩)

/-- The function `doAuthenticate`. -/
def doAuthenticate (env : Env) (email password : String) (client : Client) : LoginResult :=
  let req := authRequest env email password
  match env.send client req with
  | .error e =>
    ⟨"", some (NewInfrastructureError ("syncano: Request failed - " ++ e)), [Event.request req]⟩
  | .ok response =>
    let m : authResponse := ⟨""⟩
    let r := parseResponse env.unmarshalAuthResponse "*syncano.authResponse" response m
    match r.err with
    | some err => ⟨"", some err, Event.request req :: r.events⟩
    | none => ⟨r.v.APIKey, none, Event.request req :: r.events⟩

/-! ## authenticate and Connect -/

structure AuthResult where
  s : syncano
  err : Option Error
  events : List Event

/-- The method `authenticate`; `s` in the result is the session after the call. -/
def authenticate (env : Env) (s : syncano) : AuthResult :=
  if s.authenticated then ⟨s, none, []⟩
  else if s.apiKey ≠ "" then
    let r := validateAPIKEY env s
    ⟨{ s with authenticated := r.valid }, r.err, r.events⟩
  else if s.email ≠ "" ∧ s.password ≠ "" then
    let r := doAuthenticate env s.email s.password s.client
    match r.err with
    | some err => ⟨s, some err, r.events⟩
    | none => ⟨{ s with apiKey := r.apiKey, authenticated := true }, none, r.events⟩
  else ⟨s, some (NewInfrastructureError "Please sepcify login credentials"), []⟩

/-- The method `IsAuthenticated`. -/
def syncano.IsAuthenticated (s : syncano) : Bool := s.authenticated

/-- The function `getConn`: the client returned and `net/http`'s shared values
after the call (the client returned is the shared default client). -/
def getConn (serverName : String) (skipSSLVerify : Bool) (h : HTTPDefaults) :
    Client × HTTPDefaults :=
  let tlsConfig : TLSConfig := ⟨skipSSLVerify, serverName⟩
  let transport : Transport := { h.DefaultTransport with TLSClientConfig := some tlsConfig }
  let client : Client :=
    { h.DefaultClient with Transport := some transport, Timeout := timeSecond * DefaultTimeOut }
  (client, ⟨transport, client⟩)

structure ConnectResult where
  S : Option Syncano
  err : Option Error
  events : List Event
  http : HTTPDefaults

/-- The function `Connect`. -/
def Connect (env : Env) (h : HTTPDefaults) (connCred : ConnectionCredentials) : ConnectResult :=
  let c := getConn DefaultServer connCred.SkipSSLVerification h
  let s : syncano :=
    { client := c.1
      apiKey := connCred.APIKey
      InstanceName := connCred.InstanceName
      InstanceKey := connCred.InstanceKey
      email := connCred.Email
      password := connCred.Password
      authenticated := false }
  let r := authenticate env s
  match r.err with
  | some err => ⟨none, some err, r.events, c.2⟩
  | none => ⟨some ⟨r.s⟩, none, r.events, c.2⟩

/-- The session `Connect` builds from the credentials before it authenticates. -/
def initialSession (h : HTTPDefaults) (connCred : ConnectionCredentials) : syncano :=
  { client := (getConn DefaultServer connCred.SkipSSLVerification h).1
    apiKey := connCred.APIKey
    InstanceName := connCred.InstanceName
    InstanceKey := connCred.InstanceKey
    email := connCred.Email
    password := connCred.Password
    authenticated := false }

/-- The requests among the events of a call, in the order they were issued. -/
def requestsOf : List Event → List Request
  | [] => []
  | Event.request r :: rest => r :: requestsOf rest
  | _ :: rest => requestsOf rest

/-! ## A concrete world for the examples -/

/-- The behaviour of `json.Unmarshal` into an `authResponse` on the bodies of the
examples: the empty object decodes and leaves the destination as it was, an
object with an `account_key` sets the key, an empty body is an error; any
other body stands for text that is not JSON. -/
def exampleUnmarshalAuthResponse (bytes : String) (v : authResponse) :
    authResponse × Option String :=
  if bytes = "\x7b\x7d" then (v, none)
  else if bytes = "\x7b\"account_key\":\"newkey\"\x7d" then (⟨"newkey"⟩, none)
  else if bytes = "" then (v, some "unexpected end of JSON input")
  else (v, some "invalid character looking for beginning of value")

/-- The behaviour of `json.Unmarshal` into an `AccountDetails` on the bodies of
the examples. -/
def exampleUnmarshalAccountDetails (bytes : String) (v : AccountDetails) :
    AccountDetails × Option String :=
  if bytes = "\x7b\x7d" then (v, none)
  else if bytes
      = "\x7b\"id\":1,\"email\":\"a@b.com\",\"first_name\":\"A\",\"last_name\":\"B\"\x7d" then
    (⟨1, "a@b.com", "B", "A"⟩, none)
  else if bytes = "" then (v, some "unexpected end of JSON input")
  else (v, some "invalid character looking for beginning of value")

/-- What `json.Marshal` writes for an `authParam` whose texts need no escaping. -/
def exampleMarshalAuthParam (p : authParam) : String :=
  "\x7b\"email\":\"" ++ p.Email ++ "\",\"password\":\"" ++ p.Password ++ "\"\x7d"

/-- A world in which every `Get` is answered by `account` and every `Post` by
`login`. -/
def exampleEnv (account login : Except String Response) : Env where
  send := fun _ r =>
    match r with
    | .Get _ => account
    | .Post _ _ _ => login
  marshalAuthParam := exampleMarshalAuthParam
  unmarshalAuthResponse := exampleUnmarshalAuthResponse
  unmarshalAccountDetails := exampleUnmarshalAccountDetails

/-- The shared values of `net/http` before any call of `getConn`. -/
def exampleDefaults : HTTPDefaults := ⟨⟨none⟩, ⟨none, 0⟩⟩

/-- The account payload of the examples. -/
def exampleAccountBody : String :=
  "\x7b\"id\":1,\"email\":\"a@b.com\",\"first_name\":\"A\",\"last_name\":\"B\"\x7d"

/-- A session that is not authenticated, with the given credentials. -/
def exampleSession (apiKey email password : String) : syncano :=
  ⟨⟨none, 0⟩, apiKey, "", "", email, password, false⟩

/-! ## Response classification -/

/-- The status code lies in none of the four bands `parseResponse` tests. -/
def outsideBands (c : Int) : Prop :=
  ¬ (400 ≤ c ∧ c ≤ 499) ∧ ¬ (500 ≤ c ∧ c ≤ 599) ∧ ¬ (300 ≤ c ∧ c ≤ 399) ∧ ¬ (100 ≤ c ∧ c ≤ 199)

theorem parseResponse_events {α : Type} (unmarshal : String → α → α × Option String)
    (typeName : String) (response : Response) (v : α) :
    (parseResponse unmarshal typeName response v).events = [Event.closeBody] := by
  unfold parseResponse
  split_ifs <;> try rfl
  split
  · rfl
  · split <;> rfl

theorem parseResponse_outside {α : Type} (unmarshal : String → α → α × Option String)
    (typeName : String) (response : Response) (v : α) (h : outsideBands response.StatusCode) :
    parseResponse unmarshal typeName response v =
      match response.Body with
      | .error e =>
        ⟨v, some (Error.InfrastructureError
            ("syncano: Error in reading the response body -" ++ e)), [Event.closeBody]⟩
      | .ok bytes =>
        match unmarshal bytes v with
        | (w, some _) =>
          ⟨w, some (Error.InfrastructureError
              ("syncano: error in parsing response body bytes - " ++ bytes
                ++ "to type -" ++ typeName)), [Event.closeBody]⟩
        | (w, none) => ⟨w, none, [Event.closeBody]⟩ := by
  obtain ⟨h4, h5, h3, h1⟩ := h
  unfold parseResponse
  rw [if_neg h4, if_neg h5, if_neg h3, if_neg h1]
  rfl

/-- The error `parseResponse` returns for a status code in one of the four bands. -/
theorem parseResponse_status_bands {α : Type} (unmarshal : String → α → α × Option String)
    (typeName : String) (response : Response) (v : α) :
    ((400 ≤ response.StatusCode ∧ response.StatusCode ≤ 499) →
      (parseResponse unmarshal typeName response v).err
        = some (Error.ClientError ⟨response.StatusCode⟩)) ∧
    ((500 ≤ response.StatusCode ∧ response.StatusCode ≤ 599) →
      (parseResponse unmarshal typeName response v).err
        = some (Error.ServerError ⟨response.StatusCode⟩)) ∧
    ((300 ≤ response.StatusCode ∧ response.StatusCode ≤ 399) →
      (parseResponse unmarshal typeName response v).err
        = some (Error.RedirectionError ⟨response.StatusCode⟩)) ∧
    ((100 ≤ response.StatusCode ∧ response.StatusCode ≤ 199) →
      (parseResponse unmarshal typeName response v).err
        = some (Error.InformationalError ⟨response.StatusCode⟩)) := by
  refine ⟨?_, ?_, ?_, ?_⟩
  · intro h
    unfold parseResponse
    rw [if_pos h]
  · intro h
    unfold parseResponse
    rw [if_neg (by omega), if_pos h]
  · intro h
    unfold parseResponse
    rw [if_neg (by omega), if_neg (by omega), if_pos h]
  · intro h
    unfold parseResponse
    rw [if_neg (by omega), if_neg (by omega), if_neg (by omega), if_pos h]

/-- C1: `parseResponse` returns the status-band error carrying the status code
for a code in 400..499, 500..599, 300..399 or 100..199; for every other code it
returns no status-band error, returns `nil` exactly when the body was read and
decoded into the destination (which then holds the decoded value), and
otherwise returns an `InfrastructureError`. -/
theorem parseResponse_classifies {α : Type} (unmarshal : String → α → α × Option String)
    (typeName : String) (response : Response) (v : α) :
    ((400 ≤ response.StatusCode ∧ response.StatusCode ≤ 499) →
      (parseResponse unmarshal typeName response v).err
        = some (Error.ClientError ⟨response.StatusCode⟩)) ∧
    ((500 ≤ response.StatusCode ∧ response.StatusCode ≤ 599) →
      (parseResponse unmarshal typeName response v).err
        = some (Error.ServerError ⟨response.StatusCode⟩)) ∧
    ((300 ≤ response.StatusCode ∧ response.StatusCode ≤ 399) →
      (parseResponse unmarshal typeName response v).err
        = some (Error.RedirectionError ⟨response.StatusCode⟩)) ∧
    ((100 ≤ response.StatusCode ∧ response.StatusCode ≤ 199) →
      (parseResponse unmarshal typeName response v).err
        = some (Error.InformationalError ⟨response.StatusCode⟩)) ∧
    (outsideBands response.StatusCode →
      (∀ e, (parseResponse unmarshal typeName response v).err = some e →
        e.isStatusBand = false ∧ e.isInfrastructure = true) ∧
      ((parseResponse unmarshal typeName response v).err = none ↔
        ∃ bytes, response.Body = .ok bytes ∧ (unmarshal bytes v).2 = none) ∧
      (∀ bytes, response.Body = .ok bytes → (unmarshal bytes v).2 = none →
        (parseResponse unmarshal typeName response v).v = (unmarshal bytes v).1)) := by
  have hbands := parseResponse_status_bands unmarshal typeName response v
  refine ⟨hbands.1, hbands.2.1, hbands.2.2.1, hbands.2.2.2, ?_⟩
  intro h
  rw [parseResponse_outside unmarshal typeName response v h]
  cases hb : response.Body with
  | error e =>
    refine ⟨?_, ?_, ?_⟩
    · intro e1 he
      simp only [Option.some.injEq] at he
      subst he
      exact ⟨rfl, rfl⟩
    · simp
    · intro bytes hbytes
      cases hbytes
  | ok bytes =>
    rcases hu : unmarshal bytes v with ⟨w, _ | m⟩
    · refine ⟨?_, ?_, ?_⟩
      · intro e1 he
        simp [hu] at he
      · simp [hu]
      · intro b hbytes hnone
        cases hbytes
        simp [hu]
    · refine ⟨?_, ?_, ?_⟩
      · intro e1 he
        simp only [hu, Option.some.injEq] at he
        subst he
        exact ⟨rfl, rfl⟩
      · simp [hu]
      · intro b hbytes hnone
        cases hbytes
        simp [hu] at hnone

/-- C1 at concrete inputs: a 404, a 204 with an empty body (which does not
decode), and a 200 with the empty object (which does). -/
theorem parseResponse_classifies_witness :
    (parseResponse exampleUnmarshalAuthResponse "*syncano.authResponse"
        ⟨404, .ok ""⟩ ⟨""⟩).err = some (Error.ClientError ⟨404⟩) ∧
    (∀ e, (parseResponse exampleUnmarshalAuthResponse "*syncano.authResponse"
        ⟨204, .ok ""⟩ ⟨""⟩).err = some e → e.isStatusBand = false ∧ e.isInfrastructure = true) ∧
    (parseResponse exampleUnmarshalAuthResponse "*syncano.authResponse"
        ⟨204, .ok ""⟩ ⟨""⟩).err ≠ none ∧
    (parseResponse exampleUnmarshalAuthResponse "*syncano.authResponse"
        ⟨200, .ok "\x7b\x7d"⟩ ⟨""⟩).err = none :=
  ⟨(parseResponse_classifies exampleUnmarshalAuthResponse "*syncano.authResponse"
      ⟨404, .ok ""⟩ ⟨""⟩).1 (by decide),
    ((parseResponse_classifies exampleUnmarshalAuthResponse "*syncano.authResponse"
      ⟨204, .ok ""⟩ ⟨""⟩).2.2.2.2 (by unfold outsideBands; decide)).1,
    by decide,
    (((parseResponse_classifies exampleUnmarshalAuthResponse "*syncano.authResponse"
      ⟨200, .ok "\x7b\x7d"⟩ ⟨""⟩).2.2.2.2 (by unfold outsideBands; decide)).2.1).2
      ⟨_, rfl, by decide⟩⟩

/-! ## The branches of the remote operations and of authenticate -/

theorem GetAccountDetails_of_error (env : Env) (s : syncano) (e : String)
    (h : env.send s.client (Request.Get (accountURL s.apiKey)) = .error e) :
    GetAccountDetails env s
      = ⟨none, some (Error.transport e), [Event.request (Request.Get (accountURL s.apiKey))]⟩ := by
  unfold GetAccountDetails
  simp only [h]

theorem GetAccountDetails_of_response (env : Env) (s : syncano) (resp : Response)
    (h : env.send s.client (Request.Get (accountURL s.apiKey)) = .ok resp) :
    GetAccountDetails env s
      = ⟨some (parseResponse env.unmarshalAccountDetails "*syncano.AccountDetails" resp
            ⟨0, "", "", ""⟩).v,
          (parseResponse env.unmarshalAccountDetails "*syncano.AccountDetails" resp
            ⟨0, "", "", ""⟩).err,
          [Event.request (Request.Get (accountURL s.apiKey)), Event.closeBody]⟩ := by
  unfold GetAccountDetails
  simp only [h, parseResponse_events]

theorem doAuthenticate_of_error (env : Env) (email password : String) (client : Client)
    (e : String) (h : env.send client (authRequest env email password) = .error e) :
    doAuthenticate env email password client
      = ⟨"", some (Error.InfrastructureError ("syncano: Request failed - " ++ e)),
          [Event.request (authRequest env email password)]⟩ := by
  unfold doAuthenticate
  simp only [h, NewInfrastructureError]

theorem doAuthenticate_of_response (env : Env) (email password : String) (client : Client)
    (resp : Response) (h : env.send client (authRequest env email password) = .ok resp) :
    doAuthenticate env email password client
      = match (parseResponse env.unmarshalAuthResponse "*syncano.authResponse" resp ⟨""⟩).err with
        | some err =>
          ⟨"", some err, [Event.request (authRequest env email password), Event.closeBody]⟩
        | none =>
          ⟨(parseResponse env.unmarshalAuthResponse "*syncano.authResponse" resp ⟨""⟩).v.APIKey,
            none, [Event.request (authRequest env email password), Event.closeBody]⟩ := by
  unfold doAuthenticate
  simp only [h, parseResponse_events]

theorem authenticate_of_authenticated (env : Env) (s : syncano) (h : s.authenticated = true) :
    authenticate env s = ⟨s, none, []⟩ := by
  unfold authenticate
  rw [if_pos h]

theorem authenticate_of_apiKey (env : Env) (s : syncano) (hauth : s.authenticated = false)
    (hkey : s.apiKey ≠ "") :
    authenticate env s
      = ⟨{ s with authenticated := (validateAPIKEY env s).valid }, (validateAPIKEY env s).err,
          (validateAPIKEY env s).events⟩ := by
  unfold authenticate
  rw [if_neg (by simp [hauth]), if_pos hkey]

theorem authenticate_of_login (env : Env) (s : syncano) (hauth : s.authenticated = false)
    (hkey : s.apiKey = "") (hemail : s.email ≠ "") (hpassword : s.password ≠ "") :
    authenticate env s
      = match (doAuthenticate env s.email s.password s.client).err with
        | some err => ⟨s, some err, (doAuthenticate env s.email s.password s.client).events⟩
        | none =>
          ⟨{ s with apiKey := (doAuthenticate env s.email s.password s.client).apiKey,
                    authenticated := true },
            none, (doAuthenticate env s.email s.password s.client).events⟩ := by
  unfold authenticate
  rw [if_neg (by simp [hauth]), if_neg (by simp [hkey]), if_pos ⟨hemail, hpassword⟩]

theorem authenticate_of_nothing (env : Env) (s : syncano) (hauth : s.authenticated = false)
    (hkey : s.apiKey = "") (hcred : s.email = "" ∨ s.password = "") :
    authenticate env s
      = ⟨s, some (Error.InfrastructureError "Please sepcify login credentials"), []⟩ := by
  unfold authenticate
  rw [if_neg (by simp [hauth]), if_neg (by simp [hkey]), if_neg (by tauto)]
  rfl

/-- A call of `authenticate` that returns no error leaves the session authenticated. -/
theorem authenticate_success_authenticated (env : Env) (s : syncano)
    (h : (authenticate env s).err = none) : (authenticate env s).s.authenticated = true := by
  by_cases hauth : s.authenticated = true
  · rw [authenticate_of_authenticated env s hauth]
    exact hauth
  · have hauth : s.authenticated = false := by simpa using hauth
    by_cases hkey : s.apiKey = ""
    · by_cases hcred : s.email = "" ∨ s.password = ""
      · rw [authenticate_of_nothing env s hauth hkey hcred] at h
        cases h
      · have hemail : s.email ≠ "" := fun hc => hcred (Or.inl hc)
        have hpassword : s.password ≠ "" := fun hc => hcred (Or.inr hc)
        rw [authenticate_of_login env s hauth hkey hemail hpassword] at h ⊢
        cases hd : (doAuthenticate env s.email s.password s.client).err with
        | none => rfl
        | some err =>
          rw [hd] at h
          cases h
    · rw [authenticate_of_apiKey env s hauth hkey] at h ⊢
      simp only [validateAPIKEY] at h ⊢
      cases hsend : env.send s.client (Request.Get (accountURL s.apiKey)) with
      | error e =>
        rw [GetAccountDetails_of_error env s e hsend] at h
        cases h
      | ok resp =>
        rw [GetAccountDetails_of_response env s resp hsend]
        rfl

theorem Connect_eq (env : Env) (h : HTTPDefaults) (connCred : ConnectionCredentials) :
    Connect env h connCred
      = match (authenticate env (initialSession h connCred)).err with
        | some err =>
          ⟨none, some err, (authenticate env (initialSession h connCred)).events,
            (getConn DefaultServer connCred.SkipSSLVerification h).2⟩
        | none =>
          ⟨some ⟨(authenticate env (initialSession h connCred)).s⟩, none,
            (authenticate env (initialSession h connCred)).events,
            (getConn DefaultServer connCred.SkipSSLVerification h).2⟩ := rfl

/-! ## Claims about authenticate -/

/-- C8: on a session with `authenticated == true`, whatever its other fields,
`authenticate` returns no error, issues no request and writes no log line, and
leaves the session as it was; so after a call that returned no error, a second
call, in any world, returns no error, does nothing and keeps the state of the
first. -/
theorem authenticate_idempotent (env : Env) (s : syncano) :
    (s.authenticated = true → authenticate env s = ⟨s, none, []⟩) ∧
    ((authenticate env s).err = none →
      ∀ env2 : Env, authenticate env2 (authenticate env s).s
        = ⟨(authenticate env s).s, none, []⟩) := by
  constructor
  · exact authenticate_of_authenticated env s
  · intro h env2
    exact authenticate_of_authenticated env2 _ (authenticate_success_authenticated env s h)

/-- C8 at a concrete input: a session that logged in with an email and a
password is left alone by a second call, also when the server is down. -/
theorem authenticate_idempotent_witness :
    (authenticate (exampleEnv (.error "down") (.ok ⟨200, .ok "\x7b\"account_key\":\"newkey\"\x7d"⟩))
        (exampleSession "" "x" "y")).s.apiKey = "newkey" ∧
    authenticate (exampleEnv (.error "down") (.error "down"))
        (authenticate (exampleEnv (.error "down") (.ok ⟨200, .ok "\x7b\"account_key\":\"newkey\"\x7d"⟩))
          (exampleSession "" "x" "y")).s
      = ⟨(authenticate (exampleEnv (.error "down") (.ok ⟨200, .ok "\x7b\"account_key\":\"newkey\"\x7d"⟩))
          (exampleSession "" "x" "y")).s, none, []⟩ :=
  ⟨by decide,
    (authenticate_idempotent
      (exampleEnv (.error "down") (.ok ⟨200, .ok "\x7b\"account_key\":\"newkey\"\x7d"⟩))
      (exampleSession "" "x" "y")).2 (by decide) (exampleEnv (.error "down") (.error "down"))⟩

/-- C5: on a session that is not authenticated, has an empty API key and an
empty email or an empty password, `authenticate` returns the
`InfrastructureError` for missing credentials, issues no request, and leaves
the session as it was: not authenticated, the API key empty. -/
theorem authenticate_missing_credentials (env : Env) (s : syncano)
    (hauth : s.authenticated = false) (hkey : s.apiKey = "")
    (hcred : s.email = "" ∨ s.password = "") :
    (authenticate env s).err
        = some (NewInfrastructureError "Please sepcify login credentials") ∧
    (authenticate env s).events = [] ∧
    (authenticate env s).s = s ∧
    (authenticate env s).s.authenticated = false ∧
    (authenticate env s).s.apiKey = "" := by
  rw [authenticate_of_nothing env s hauth hkey hcred]
  exact ⟨rfl, rfl, rfl, hauth, hkey⟩

/-- C5 at a concrete input: an email without a password, the login endpoint
ready to answer. -/
theorem authenticate_missing_credentials_witness :
    (authenticate (exampleEnv (.error "down") (.ok ⟨200, .ok "\x7b\x7d"⟩))
        (exampleSession "" "x" "")).err
        = some (NewInfrastructureError "Please sepcify login credentials") ∧
    (authenticate (exampleEnv (.error "down") (.ok ⟨200, .ok "\x7b\x7d"⟩))
        (exampleSession "" "x" "")).events = [] :=
  have h := authenticate_missing_credentials
    (exampleEnv (.error "down") (.ok ⟨200, .ok "\x7b\x7d"⟩)) (exampleSession "" "x" "")
    rfl rfl (Or.inr rfl)
  ⟨h.1, h.2.1⟩

theorem GetAccountDetails_congr (env env2 : Env) (s : syncano)
    (hget : ∀ url, env2.send s.client (Request.Get url) = env.send s.client (Request.Get url))
    (hdec : env2.unmarshalAccountDetails = env.unmarshalAccountDetails) :
    GetAccountDetails env2 s = GetAccountDetails env s := by
  unfold GetAccountDetails
  simp only [hget, hdec]

theorem requestsOf_validateAPIKEY (env : Env) (s : syncano) :
    requestsOf (validateAPIKEY env s).events = [Request.Get (accountURL s.apiKey)] := by
  unfold validateAPIKEY
  cases hsend : env.send s.client (Request.Get (accountURL s.apiKey)) with
  | error e =>
    rw [GetAccountDetails_of_error env s e hsend]
    rfl
  | ok resp =>
    rw [GetAccountDetails_of_response env s resp hsend]
    cases (parseResponse env.unmarshalAccountDetails "*syncano.AccountDetails" resp
      ⟨0, "", "", ""⟩).err <;> rfl

/-- C4: on a session that is not authenticated and has a non-empty API key,
whatever its email and password, `authenticate` issues exactly one request, the
account-details request for that key, and so never the login request; it
returns the error of that request and keeps the API key; and its whole result
is the same in every world that answers the account-details requests alike,
whatever the login endpoint does there. -/
theorem authenticate_apiKey_only (env env2 : Env) (s : syncano)
    (hauth : s.authenticated = false) (hkey : s.apiKey ≠ "")
    (hget : ∀ url, env2.send s.client (Request.Get url) = env.send s.client (Request.Get url))
    (hdec : env2.unmarshalAccountDetails = env.unmarshalAccountDetails) :
    requestsOf (authenticate env s).events = [Request.Get (accountURL s.apiKey)] ∧
    (authenticate env s).err = (GetAccountDetails env s).err ∧
    (authenticate env s).s.apiKey = s.apiKey ∧
    authenticate env2 s = authenticate env s := by
  rw [authenticate_of_apiKey env s hauth hkey, authenticate_of_apiKey env2 s hauth hkey]
  refine ⟨requestsOf_validateAPIKEY env s, rfl, rfl, ?_⟩
  simp only [validateAPIKEY, GetAccountDetails_congr env env2 s hget hdec]

/-- C4 at a concrete input: an invalid key (the account endpoint answers 401) with
an email and a password the login endpoint would accept. -/
theorem authenticate_apiKey_only_witness :
    requestsOf (authenticate
        (exampleEnv (.ok ⟨401, .ok ""⟩) (.ok ⟨200, .ok "\x7b\"account_key\":\"newkey\"\x7d"⟩))
        (exampleSession "badkey" "x" "y")).events
      = [Request.Get "https://api.syncano.rocks/v1/account/?api_key=badkey"] ∧
    (authenticate
        (exampleEnv (.ok ⟨401, .ok ""⟩) (.ok ⟨200, .ok "\x7b\"account_key\":\"newkey\"\x7d"⟩))
        (exampleSession "badkey" "x" "y")).err = some (Error.ClientError ⟨401⟩) ∧
    authenticate (exampleEnv (.ok ⟨401, .ok ""⟩) (.error "down"))
        (exampleSession "badkey" "x" "y")
      = authenticate
        (exampleEnv (.ok ⟨401, .ok ""⟩) (.ok ⟨200, .ok "\x7b\"account_key\":\"newkey\"\x7d"⟩))
        (exampleSession "badkey" "x" "y") :=
  have h := authenticate_apiKey_only
    (exampleEnv (.ok ⟨401, .ok ""⟩) (.ok ⟨200, .ok "\x7b\"account_key\":\"newkey\"\x7d"⟩))
    (exampleEnv (.ok ⟨401, .ok ""⟩) (.error "down"))
    (exampleSession "badkey" "x" "y") rfl (by decide) (fun _ => rfl) rfl
  ⟨h.1, by decide, h.2.2.2⟩

/-! ## Claims about Connect -/

theorem authenticate_apiKey_status (env : Env) (s : syncano) (resp : Response) (e : Error)
    (hauth : s.authenticated = false) (hkey : s.apiKey ≠ "")
    (hsend : env.send s.client (Request.Get (accountURL s.apiKey)) = .ok resp)
    (herr : (parseResponse env.unmarshalAccountDetails "*syncano.AccountDetails" resp
      ⟨0, "", "", ""⟩).err = some e) :
    (authenticate env s).err = some e := by
  rw [authenticate_of_apiKey env s hauth hkey]
  simp only [validateAPIKEY, GetAccountDetails_of_response env s resp hsend, herr]

theorem Connect_of_error (env : Env) (h : HTTPDefaults) (connCred : ConnectionCredentials)
    (e : Error) (herr : (authenticate env (initialSession h connCred)).err = some e) :
    (Connect env h connCred).S = none ∧ (Connect env h connCred).err = some e := by
  rw [Connect_eq, herr]
  exact ⟨rfl, rfl⟩

/-- C6: when `authenticate` fails on the session built from the credentials,
`Connect` returns no session and that same error; a call of `Connect` returns
either an error and no session or a session and no error; and for a non-empty
API key, when the account endpoint answers with a status in 400..499 `Connect`
returns no session and the `ClientError` carrying that status, and likewise the
`ServerError`, `RedirectionError` and `InformationalError` for 500..599,
300..399 and 100..199. -/
theorem Connect_failure_propagates (env : Env) (h : HTTPDefaults)
    (connCred : ConnectionCredentials) :
    (∀ e, (authenticate env (initialSession h connCred)).err = some e →
      (Connect env h connCred).S = none ∧ (Connect env h connCred).err = some e) ∧
    (((Connect env h connCred).S = none ∧ (Connect env h connCred).err ≠ none) ∨
      ((Connect env h connCred).S ≠ none ∧ (Connect env h connCred).err = none)) ∧
    (connCred.APIKey ≠ "" → ∀ resp : Response,
      env.send (initialSession h connCred).client (Request.Get (accountURL connCred.APIKey))
        = .ok resp →
      ((400 ≤ resp.StatusCode ∧ resp.StatusCode ≤ 499) →
        (Connect env h connCred).S = none ∧
        (Connect env h connCred).err = some (Error.ClientError ⟨resp.StatusCode⟩)) ∧
      ((500 ≤ resp.StatusCode ∧ resp.StatusCode ≤ 599) →
        (Connect env h connCred).S = none ∧
        (Connect env h connCred).err = some (Error.ServerError ⟨resp.StatusCode⟩)) ∧
      ((300 ≤ resp.StatusCode ∧ resp.StatusCode ≤ 399) →
        (Connect env h connCred).S = none ∧
        (Connect env h connCred).err = some (Error.RedirectionError ⟨resp.StatusCode⟩)) ∧
      ((100 ≤ resp.StatusCode ∧ resp.StatusCode ≤ 199) →
        (Connect env h connCred).S = none ∧
        (Connect env h connCred).err = some (Error.InformationalError ⟨resp.StatusCode⟩))) := by
  refine ⟨Connect_of_error env h connCred, ?_, ?_⟩
  · rw [Connect_eq]
    cases (authenticate env (initialSession h connCred)).err with
    | none => exact Or.inr ⟨by simp, rfl⟩
    | some e => exact Or.inl ⟨rfl, by simp⟩
  · intro hkey resp hsend
    have hcls := parseResponse_status_bands env.unmarshalAccountDetails
      "*syncano.AccountDetails" resp (⟨0, "", "", ""⟩ : AccountDetails)
    refine ⟨?_, ?_, ?_, ?_⟩
    · intro hc
      exact Connect_of_error env h connCred _
        (authenticate_apiKey_status env _ resp _ rfl hkey hsend (hcls.1 hc))
    · intro hc
      exact Connect_of_error env h connCred _
        (authenticate_apiKey_status env _ resp _ rfl hkey hsend (hcls.2.1 hc))
    · intro hc
      exact Connect_of_error env h connCred _
        (authenticate_apiKey_status env _ resp _ rfl hkey hsend (hcls.2.2.1 hc))
    · intro hc
      exact Connect_of_error env h connCred _
        (authenticate_apiKey_status env _ resp _ rfl hkey hsend (hcls.2.2.2 hc))

/-- C6 at a concrete input: the key `badkey` against an account endpoint that
answers 401. -/
theorem Connect_failure_propagates_witness :
    (Connect (exampleEnv (.ok ⟨401, .ok ""⟩) (.error "down")) exampleDefaults
        ⟨"badkey", "", "", "", "", true⟩).S = none ∧
    (Connect (exampleEnv (.ok ⟨401, .ok ""⟩) (.error "down")) exampleDefaults
        ⟨"badkey", "", "", "", "", true⟩).err = some (Error.ClientError ⟨401⟩) :=
  ((Connect_failure_propagates (exampleEnv (.ok ⟨401, .ok ""⟩) (.error "down")) exampleDefaults
      ⟨"badkey", "", "", "", "", true⟩).2.2 (by decide) ⟨401, .ok ""⟩ rfl).1 (by decide)

theorem outsideBands_of_2xx (c : Int) (h : 200 ≤ c ∧ c ≤ 299) : outsideBands c := by
  unfold outsideBands
  omega

theorem parseResponse_of_decoded {α : Type} (unmarshal : String → α → α × Option String)
    (typeName : String) (response : Response) (v w : α) (bytes : String)
    (hc : outsideBands response.StatusCode) (hb : response.Body = .ok bytes)
    (hu : unmarshal bytes v = (w, none)) :
    parseResponse unmarshal typeName response v = ⟨w, none, [Event.closeBody]⟩ := by
  rw [parseResponse_outside unmarshal typeName response v hc, hb]
  simp only [hu]

theorem Connect_of_success (env : Env) (h : HTTPDefaults) (connCred : ConnectionCredentials)
    (herr : (authenticate env (initialSession h connCred)).err = none) :
    (Connect env h connCred).err = none ∧
    (Connect env h connCred).S = some ⟨(authenticate env (initialSession h connCred)).s⟩ := by
  rw [Connect_eq, herr]
  exact ⟨rfl, rfl⟩

/-- C7: a session that `Connect` returns is authenticated, carries the API key
of the credentials when that is not empty, and otherwise the key the login
request returned. With a non-empty API key `k`, an account endpoint that answers
2xx with a body that decodes gives a session, authenticated, with the key `k`;
with an empty API key and a non-empty email and password, a login endpoint that
answers 2xx with a body that decodes to the key `K` gives a session,
authenticated, with the key `K`. -/
theorem Connect_success_apiKey (env : Env) (h : HTTPDefaults)
    (connCred : ConnectionCredentials) :
    (∀ S, (Connect env h connCred).S = some S →
      S.syncano.authenticated = true ∧
      (connCred.APIKey ≠ "" → S.syncano.apiKey = connCred.APIKey) ∧
      (connCred.APIKey = "" → S.syncano.apiKey
        = (doAuthenticate env connCred.Email connCred.Password
            (initialSession h connCred).client).apiKey)) ∧
    (connCred.APIKey ≠ "" → ∀ (resp : Response) (bytes : String),
      env.send (initialSession h connCred).client (Request.Get (accountURL connCred.APIKey))
        = .ok resp →
      (200 ≤ resp.StatusCode ∧ resp.StatusCode ≤ 299) → resp.Body = .ok bytes →
      (env.unmarshalAccountDetails bytes ⟨0, "", "", ""⟩).2 = none →
      (Connect env h connCred).err = none ∧
      ∃ S, (Connect env h connCred).S = some S ∧ S.syncano.authenticated = true ∧
        S.syncano.apiKey = connCred.APIKey) ∧
    (connCred.APIKey = "" → connCred.Email ≠ "" → connCred.Password ≠ "" →
      ∀ (resp : Response) (bytes K : String),
      env.send (initialSession h connCred).client
        (authRequest env connCred.Email connCred.Password) = .ok resp →
      (200 ≤ resp.StatusCode ∧ resp.StatusCode ≤ 299) → resp.Body = .ok bytes →
      env.unmarshalAuthResponse bytes ⟨""⟩ = (⟨K⟩, none) →
      (Connect env h connCred).err = none ∧
      ∃ S, (Connect env h connCred).S = some S ∧ S.syncano.authenticated = true ∧
        S.syncano.apiKey = K) := by
  refine ⟨?_, ?_, ?_⟩
  · intro S hS
    cases herr : (authenticate env (initialSession h connCred)).err with
    | some e =>
      rw [(Connect_of_error env h connCred e herr).1] at hS
      cases hS
    | none =>
      rw [(Connect_of_success env h connCred herr).2] at hS
      cases hS
      refine ⟨authenticate_success_authenticated env _ herr, ?_, ?_⟩
      · intro hkey
        rw [authenticate_of_apiKey env (initialSession h connCred) rfl hkey]
        rfl
      · intro hkey
        by_cases hcred : connCred.Email = "" ∨ connCred.Password = ""
        · rw [authenticate_of_nothing env (initialSession h connCred) rfl hkey hcred] at herr
          cases herr
        · have hemail : connCred.Email ≠ "" := fun hc => hcred (Or.inl hc)
          have hpassword : connCred.Password ≠ "" := fun hc => hcred (Or.inr hc)
          rw [authenticate_of_login env (initialSession h connCred) rfl hkey hemail
            hpassword] at herr ⊢
          cases hd : (doAuthenticate env (initialSession h connCred).email
              (initialSession h connCred).password (initialSession h connCred).client).err with
          | none => rfl
          | some e =>
            rw [hd] at herr
            cases herr
  · intro hkey resp bytes hsend hc hb hu
    have hp := parseResponse_of_decoded env.unmarshalAccountDetails "*syncano.AccountDetails"
      resp ⟨0, "", "", ""⟩ (env.unmarshalAccountDetails bytes ⟨0, "", "", ""⟩).1 bytes
      (outsideBands_of_2xx _ hc) hb (Prod.ext rfl hu)
    have hauth : authenticate env (initialSession h connCred)
        = ⟨{ initialSession h connCred with authenticated := true }, none,
            [Event.request (Request.Get (accountURL connCred.APIKey)), Event.closeBody]⟩ := by
      rw [authenticate_of_apiKey env (initialSession h connCred) rfl hkey]
      simp only [validateAPIKEY, GetAccountDetails_of_response env _ resp hsend, hp]
      rfl
    have hok := Connect_of_success env h connCred (by rw [hauth])
    refine ⟨hok.1, _, hok.2, ?_, ?_⟩
    · rw [hauth]
    · rw [hauth]
      rfl
  · intro hkey hemail hpassword resp bytes K hsend hc hb hu
    have hp := parseResponse_of_decoded env.unmarshalAuthResponse "*syncano.authResponse"
      resp ⟨""⟩ ⟨K⟩ bytes (outsideBands_of_2xx _ hc) hb hu
    have hd : doAuthenticate env connCred.Email connCred.Password
        (initialSession h connCred).client
        = ⟨K, none, [Event.request (authRequest env connCred.Email connCred.Password),
            Event.closeBody]⟩ := by
      rw [doAuthenticate_of_response env _ _ _ resp hsend, hp]
    have hauth : authenticate env (initialSession h connCred)
        = ⟨{ initialSession h connCred with apiKey := K, authenticated := true }, none,
            [Event.request (authRequest env connCred.Email connCred.Password),
              Event.closeBody]⟩ := by
      rw [authenticate_of_login env (initialSession h connCred) rfl hkey hemail hpassword]
      have hd2 : doAuthenticate env (initialSession h connCred).email
          (initialSession h connCred).password (initialSession h connCred).client
          = ⟨K, none, [Event.request (authRequest env connCred.Email connCred.Password),
              Event.closeBody]⟩ := hd
      rw [hd2]
    have hok := Connect_of_success env h connCred (by rw [hauth])
    refine ⟨hok.1, _, hok.2, ?_, ?_⟩
    · rw [hauth]
    · rw [hauth]

/-- C7 at a concrete input: an email and a password against a login endpoint that
answers 200 with the key `newkey`. -/
theorem Connect_success_apiKey_witness :
    (Connect (exampleEnv (.error "down") (.ok ⟨200, .ok "\x7b\"account_key\":\"newkey\"\x7d"⟩))
        exampleDefaults ⟨"", "", "", "x", "y", true⟩).err = none ∧
    ∃ S, (Connect (exampleEnv (.error "down") (.ok ⟨200, .ok "\x7b\"account_key\":\"newkey\"\x7d"⟩))
        exampleDefaults ⟨"", "", "", "x", "y", true⟩).S = some S ∧
      S.syncano.authenticated = true ∧ S.syncano.apiKey = "newkey" :=
  (Connect_success_apiKey
    (exampleEnv (.error "down") (.ok ⟨200, .ok "\x7b\"account_key\":\"newkey\"\x7d"⟩))
    exampleDefaults ⟨"", "", "", "x", "y", true⟩).2.2 rfl (by decide) (by decide)
    ⟨200, .ok "\x7b\"account_key\":\"newkey\"\x7d"⟩ "\x7b\"account_key\":\"newkey\"\x7d" "newkey"
    rfl (by decide) rfl (by decide)

/-- The scenario of C7 with an API key: the key `validkey` against an account
endpoint that answers 200 with an account payload. -/
theorem Connect_validkey_example :
    (Connect (exampleEnv (.ok ⟨200, .ok exampleAccountBody⟩) (.error "down"))
        exampleDefaults ⟨"validkey", "", "", "", "", true⟩).err = none ∧
    (Connect (exampleEnv (.ok ⟨200, .ok exampleAccountBody⟩) (.error "down"))
        exampleDefaults ⟨"validkey", "", "", "", "", true⟩).S
      = some ⟨⟨⟨some ⟨some ⟨true, "api.syncano.rocks"⟩⟩, 30000000000⟩,
          "validkey", "", "", "", "", true⟩⟩ := by
  decide

/-! ## Where the code departs from the claims -/

/-- C3, evaluated: the key `xx-xxx-xxxx-xxxxx` on a session that is not
authenticated, the account endpoint answering 401. `authenticate` returns the
`ClientError` for 401 and the session is marked authenticated all the same
(the API key is left as it was). -/
theorem authenticate_error_marks_authenticated :
    (authenticate (exampleEnv (.ok ⟨401, .ok ""⟩) (.error "down"))
        (exampleSession "xx-xxx-xxxx-xxxxx" "" "")).err = some (Error.ClientError ⟨401⟩) ∧
    (authenticate (exampleEnv (.ok ⟨401, .ok ""⟩) (.error "down"))
        (exampleSession "xx-xxx-xxxx-xxxxx" "" "")).s.authenticated = true ∧
    (authenticate (exampleEnv (.ok ⟨401, .ok ""⟩) (.error "down"))
        (exampleSession "xx-xxx-xxxx-xxxxx" "" "")).s.apiKey = "xx-xxx-xxxx-xxxxx" ∧
    (exampleSession "xx-xxx-xxxx-xxxxx" "" "").authenticated = false := by
  decide

/-- On the API-key path the session is marked authenticated exactly when the
client returned a response, whatever its status and body; the key is kept. -/
theorem authenticate_apiKey_session (env : Env) (s : syncano)
    (hauth : s.authenticated = false) (hkey : s.apiKey ≠ "") :
    (authenticate env s).s.apiKey = s.apiKey ∧
    ((authenticate env s).s.authenticated = true ↔
      ∃ resp, env.send s.client (Request.Get (accountURL s.apiKey)) = .ok resp) := by
  rw [authenticate_of_apiKey env s hauth hkey]
  refine ⟨rfl, ?_⟩
  simp only [validateAPIKEY]
  cases hsend : env.send s.client (Request.Get (accountURL s.apiKey)) with
  | error e =>
    rw [GetAccountDetails_of_error env s e hsend]
    simp
  | ok resp =>
    rw [GetAccountDetails_of_response env s resp hsend]
    simp

/-- C2, evaluated: an email and a password against a login endpoint that answers
200 with the empty JSON object. `Connect` returns no error and a session that
is authenticated and has an empty API key. -/
theorem Connect_session_with_empty_key :
    (Connect (exampleEnv (.error "down") (.ok ⟨200, .ok "\x7b\x7d"⟩)) exampleDefaults
        ⟨"", "", "", "x", "y", true⟩).err = none ∧
    (Connect (exampleEnv (.error "down") (.ok ⟨200, .ok "\x7b\x7d"⟩)) exampleDefaults
        ⟨"", "", "", "x", "y", true⟩).S
      = some ⟨⟨⟨some ⟨some ⟨true, "api.syncano.rocks"⟩⟩, 30000000000⟩,
          "", "", "", "x", "y", true⟩⟩ := by
  decide

/-- On the login path the key of the session is whatever the body decoded to:
for every world whose login endpoint answers 2xx with a body that decodes to an
empty `account_key`, `Connect` returns a session that is authenticated and has
an empty API key. -/
theorem Connect_login_key_unchecked (env : Env) (h : HTTPDefaults)
    (connCred : ConnectionCredentials) (resp : Response) (bytes : String)
    (hkey : connCred.APIKey = "") (hemail : connCred.Email ≠ "")
    (hpassword : connCred.Password ≠ "")
    (hsend : env.send (initialSession h connCred).client
      (authRequest env connCred.Email connCred.Password) = .ok resp)
    (hc : 200 ≤ resp.StatusCode ∧ resp.StatusCode ≤ 299) (hb : resp.Body = .ok bytes)
    (hu : env.unmarshalAuthResponse bytes ⟨""⟩ = (⟨""⟩, none)) :
    (Connect env h connCred).err = none ∧
    ∃ S, (Connect env h connCred).S = some S ∧ S.syncano.authenticated = true ∧
      S.syncano.apiKey = "" := by
  have hp := parseResponse_of_decoded env.unmarshalAuthResponse "*syncano.authResponse"
    resp ⟨""⟩ ⟨""⟩ bytes (outsideBands_of_2xx _ hc) hb hu
  have hd : doAuthenticate env (initialSession h connCred).email
      (initialSession h connCred).password (initialSession h connCred).client
      = ⟨"", none, [Event.request (authRequest env connCred.Email connCred.Password),
          Event.closeBody]⟩ := by
    have := doAuthenticate_of_response env connCred.Email connCred.Password
      (initialSession h connCred).client resp hsend
    rw [hp] at this
    exact this
  have hauth : authenticate env (initialSession h connCred)
      = ⟨{ initialSession h connCred with apiKey := "", authenticated := true }, none,
          [Event.request (authRequest env connCred.Email connCred.Password),
            Event.closeBody]⟩ := by
    rw [authenticate_of_login env (initialSession h connCred) rfl hkey hemail hpassword, hd]
  have hok := Connect_of_success env h connCred (by rw [hauth])
  refine ⟨hok.1, _, hok.2, ?_, ?_⟩
  · rw [hauth]
  · rw [hauth]

/-- C10, evaluated: the client fails with `dial tcp: i/o timeout`. The login
operation returns an `InfrastructureError` with a message; the account-details
operation, and with it `authenticate` and `Connect` on the API-key path, return
the client's error as it came, which is no `InfrastructureError` and none of
the package's error types. -/
theorem GetAccountDetails_transport_error_raw :
    (doAuthenticate (exampleEnv (.error "dial tcp: i/o timeout") (.error "dial tcp: i/o timeout"))
        "x" "y" ⟨none, 0⟩).err
      = some (Error.InfrastructureError "syncano: Request failed - dial tcp: i/o timeout") ∧
    (GetAccountDetails (exampleEnv (.error "dial tcp: i/o timeout") (.error "dial tcp: i/o timeout"))
        (exampleSession "k" "" "")).err = some (Error.transport "dial tcp: i/o timeout") ∧
    (authenticate (exampleEnv (.error "dial tcp: i/o timeout") (.error "dial tcp: i/o timeout"))
        (exampleSession "k" "" "")).err = some (Error.transport "dial tcp: i/o timeout") ∧
    (Connect (exampleEnv (.error "dial tcp: i/o timeout") (.error "dial tcp: i/o timeout"))
        exampleDefaults ⟨"k", "", "", "", "", true⟩).err
      = some (Error.transport "dial tcp: i/o timeout") ∧
    (Error.transport "dial tcp: i/o timeout").isInfrastructure = false ∧
    (Error.transport "dial tcp: i/o timeout").isClassified = false := by
  decide

/-- Every transport failure on the two remote operations: the login operation
wraps it in an `InfrastructureError`, the account-details operation hands the
client's error on as it came. -/
theorem transport_failure_errors (env : Env) (s : syncano) (e : String) :
    (env.send s.client (authRequest env s.email s.password) = .error e →
      (doAuthenticate env s.email s.password s.client).err
        = some (Error.InfrastructureError ("syncano: Request failed - " ++ e))) ∧
    (env.send s.client (Request.Get (accountURL s.apiKey)) = .error e →
      (GetAccountDetails env s).err = some (Error.transport e)) := by
  constructor
  · intro hsend
    rw [doAuthenticate_of_error env _ _ _ e hsend]
  · intro hsend
    rw [GetAccountDetails_of_error env s e hsend]

/-! ## The client -/

/-- C9: for every server name and flag, the client `getConn` returns has a TLS
configuration with that server name and with `InsecureSkipVerify` equal to the
flag, and a timeout of 30 seconds, whatever the shared values were before; a
second call with the same inputs returns the same client and leaves the shared
values as the first call left them. -/
theorem getConn_configuration (serverName : String) (skipSSLVerify : Bool) (h : HTTPDefaults) :
    (∃ t c, (getConn serverName skipSSLVerify h).1.Transport = some t ∧
      t.TLSClientConfig = some c ∧ c.ServerName = serverName ∧
      c.InsecureSkipVerify = skipSSLVerify) ∧
    (getConn serverName skipSSLVerify h).1.Timeout = 30 * timeSecond ∧
    (getConn serverName skipSSLVerify h).1.Timeout = 30000000000 ∧
    getConn serverName skipSSLVerify (getConn serverName skipSSLVerify h).2
      = getConn serverName skipSSLVerify h := by
  refine ⟨⟨_, _, rfl, rfl, rfl, rfl⟩, ?_, ?_, rfl⟩
  · simp [getConn, DefaultTimeOut, mul_comm]
  · simp [getConn, timeSecond, DefaultTimeOut]

/-- C9 at the input of the test: the default server with verification skipped. -/
theorem getConn_configuration_witness :
    (getConn "api.syncano.rocks" true exampleDefaults).1
      = ⟨some ⟨some ⟨true, "api.syncano.rocks"⟩⟩, 30000000000⟩ ∧
    (getConn "api.syncano.rocks" true exampleDefaults).1.Timeout = 30 * timeSecond :=
  ⟨by decide, (getConn_configuration "api.syncano.rocks" true exampleDefaults).2.1⟩

end SyncanoGo
